import Mathlib

/-!
Verification development for the HealthCareAnalysis repository.

Shallow embedding of the analysis pipeline and its stores:
* `multi_agent_system.py` — trend detection, anomaly detection, wellness scoring;
* `gemini_agent.py` — the LLM insight agent with its parse/fallback paths
  (the hosted completion service is modelled as an `Except String String`
  argument: `.ok text` is a returned response, `.error e` is a raised
  exception; JSON decoding of free text is modelled by an uninterpreted
  decoder argument);
* `navbar_ai.py` — the `/ai/*` endpoints with their mock generators;
* `session_memory.py` — in-memory session store and SQLite-backed memory
  bank (dicts and tables are modelled as association lists; `datetime`
  values as integers, `timedelta(hours=h)` as `h * 3600` seconds,
  `timedelta(days=d)` as `d * 86400` seconds).

Python floats are modelled as exact rationals; Python `round(x, n)` is
half-to-even rounding at the n-th decimal digit.
-/

namespace HealthCare

/-- Half-to-even rounding of a rational to an integer, modelling Python
`round`. -/
def roundHalfEven (q : ℚ) : ℤ :=
  if q - ⌊q⌋ < 1/2 then ⌊q⌋
  else if q - ⌊q⌋ > 1/2 then ⌊q⌋ + 1
  else if ⌊q⌋ % 2 = 0 then ⌊q⌋ else ⌊q⌋ + 1

/-- Python `round(x, 1)`. -/
def pyRound1 (q : ℚ) : ℚ := (roundHalfEven (q * 10) : ℚ) / 10

/-- Python `round(x, 2)`. -/
def pyRound2 (q : ℚ) : ℚ := (roundHalfEven (q * 100) : ℚ) / 100

/-- One observation of the uploaded timeseries: a dict
`{"metric": ..., "value": ..., "day": ...}` (`multi_agent_system.py`).
`item.get('value', 0)` is total on this model because `value` is a field. -/
structure HealthRecord where
  metric : String
  value : ℚ
  day : String

/-- The summary dict of 7-day averages. Python reads it with
`summary.get('X_avg_7d', 0)`; a missing key is modelled by the field
holding the default `0`. -/
structure Summary where
  steps_avg_7d : ℚ := 0
  heart_rate_avg_7d : ℚ := 0
  sleep_avg_7d : ℚ := 0
  water_avg_7d : ℚ := 0

/-- Steps sub-score of `InsightGeneratorAgent._calculate_wellness_score`. -/
def steps_score (steps : ℚ) : ℚ :=
  if steps ≥ 10000 then 25
  else if steps ≥ 8000 then 20
  else if steps ≥ 5000 then 15
  else max 0 (steps / 500)

/-- Sleep sub-score of `InsightGeneratorAgent._calculate_wellness_score`. -/
def sleep_score (sleep : ℚ) : ℚ :=
  if 7 ≤ sleep ∧ sleep ≤ 9 then 25
  else if (6 ≤ sleep ∧ sleep < 7) ∨ (9 < sleep ∧ sleep ≤ 10) then 20
  else max 0 (25 - |sleep - 8| * 5)

/-- Heart-rate sub-score of
`InsightGeneratorAgent._calculate_wellness_score`. -/
def heart_rate_score (hr : ℚ) : ℚ :=
  if 60 ≤ hr ∧ hr ≤ 80 then 25
  else if (50 ≤ hr ∧ hr < 60) ∨ (80 < hr ∧ hr ≤ 90) then 20
  else max 0 (25 - |hr - 70| * 2)

/-- Water sub-score of `InsightGeneratorAgent._calculate_wellness_score`. -/
def water_score (water : ℚ) : ℚ :=
  if water ≥ 2000 then 25
  else if water ≥ 1500 then 20
  else max 0 (water / 100)

/-- Models `InsightGeneratorAgent._calculate_wellness_score`: the four sub-scores
are accumulated into `score`, `factors` is `25` added four times, and the
result is `round((score / factors) * 100, 1)` when `factors > 0`. -/
def calculate_wellness_score (summary : Summary) : ℚ :=
  let score := steps_score summary.steps_avg_7d + sleep_score summary.sleep_avg_7d +
    heart_rate_score summary.heart_rate_avg_7d + water_score summary.water_avg_7d
  let factors : ℚ := 25 + 25 + 25 + 25
  if factors > 0 then pyRound1 (score / factors * 100) else 0

/-- The spec's literal piecewise table for the steps sub-score:
"steps ≥10000→25, ≥8000→20, ≥5000→15, else steps/500" (no floor in the
else branch). -/
def spec_steps_subscore (steps : ℚ) : ℚ :=
  if steps ≥ 10000 then 25
  else if steps ≥ 8000 then 20
  else if steps ≥ 5000 then 15
  else steps / 500

/-- The spec's literal piecewise table for the sleep sub-score:
"sleep in [7,9]→25, in [6,7)∪(9,10]→20, else 25 - |sleep-8|*5 (floored
at 0)". -/
def spec_sleep_subscore (sleep : ℚ) : ℚ :=
  if 7 ≤ sleep ∧ sleep ≤ 9 then 25
  else if (6 ≤ sleep ∧ sleep < 7) ∨ (9 < sleep ∧ sleep ≤ 10) then 20
  else max 0 (25 - |sleep - 8| * 5)

/-- The spec's literal piecewise table for the heart-rate sub-score:
"heart_rate in [60,80]→25, in [50,60)∪(80,90]→20, else 25 - |hr-70|*2"
(no floor in the else branch). -/
def spec_heart_rate_subscore (hr : ℚ) : ℚ :=
  if 60 ≤ hr ∧ hr ≤ 80 then 25
  else if (50 ≤ hr ∧ hr < 60) ∨ (80 < hr ∧ hr ≤ 90) then 20
  else 25 - |hr - 70| * 2

/-- The spec's literal piecewise table for the water sub-score:
"water ≥2000→25, ≥1500→20, else water/100" (no floor in the else
branch). -/
def spec_water_subscore (water : ℚ) : ℚ :=
  if water ≥ 2000 then 25
  else if water ≥ 1500 then 20
  else water / 100

/-- The four metric names tracked by `TrendAnalysisAgent._analyze`. -/
def tracked_metrics : List String := ["steps", "heart_rate", "sleep", "water"]

/-- Models `TrendAnalysisAgent._get_recommendation`. -/
def get_trend_recommendation (metric trend : String) (change : ℚ) : String :=
  if metric = "steps" ∧ trend = "decreasing" then
    "Consider increasing daily physical activity"
  else if metric = "sleep" ∧ trend = "decreasing" then
    "Focus on improving sleep hygiene"
  else if metric = "heart_rate" ∧ |change| > 10 then
    "Monitor heart rate patterns closely"
  else "Maintain current healthy patterns"

/-- The per-metric entry of the `trends` dict built by
`TrendAnalysisAgent._analyze`. -/
structure TrendEntry where
  trend : String
  change_percent : ℚ
  recommendation : String

/-- The body of `TrendAnalysisAgent._analyze`'s loop for one metric name:
filter the timeseries to that metric, and with at least two matching
observations emit a trend whose direction compares the last listed value
against the first listed value, whose percent change is
`round(((last - first) / first) * 100, 2)` guarded by `first > 0`, and
whose recommendation is computed from the unrounded change. -/
def analyze_metric_trend (timeseries : List HealthRecord) (metric_name : String) :
    Option TrendEntry :=
  let metric_data := timeseries.filter (fun item => item.metric = metric_name)
  if metric_data.length ≥ 2 then
    let values := metric_data.map (fun item => item.value)
    let vfirst := values.getD 0 0
    let vlast := values.getD (values.length - 1) 0
    let trend := if vlast > vfirst then "increasing" else "decreasing"
    let change := if vfirst > 0 then (vlast - vfirst) / vfirst * 100 else 0
    some { trend := trend
         , change_percent := pyRound2 change
         , recommendation := get_trend_recommendation metric_name trend change }
  else none

/-- Models `TrendAnalysisAgent._analyze`: the `trends` dict, keyed by metric name,
over the four tracked metrics. -/
def analyze_trends (timeseries : List HealthRecord) : List (String × TrendEntry) :=
  tracked_metrics.filterMap
    (fun name => (analyze_metric_trend timeseries name).map (fun e => (name, e)))

/-- One anomaly dict of `AnomalyDetectionAgent._analyze`. -/
structure Anomaly where
  date : String
  metric : String
  value : ℚ
  severity : String
  message : String

/-- The if/elif chain of `AnomalyDetectionAgent._analyze` applied to one
timeseries item. -/
def record_anomaly (item : HealthRecord) : Option Anomaly :=
  if item.metric = "heart_rate" ∧ item.value > 100 then
    some { date := item.day, metric := item.metric, value := item.value
         , severity := "high", message := "Elevated resting heart rate detected" }
  else if item.metric = "sleep" ∧ item.value < 5 then
    some { date := item.day, metric := item.metric, value := item.value
         , severity := "medium", message := "Insufficient sleep duration" }
  else if item.metric = "steps" ∧ item.value < 3000 then
    some { date := item.day, metric := item.metric, value := item.value
         , severity := "low", message := "Low daily activity level" }
  else none

/-- Models `AnomalyDetectionAgent._analyze`: the loop appending one anomaly per
triggering record to the `anomalies` list. -/
def detect_anomalies (timeseries : List HealthRecord) : List Anomaly :=
  timeseries.foldl
    (fun anomalies item =>
      match record_anomaly item with
      | some a => anomalies ++ [a]
      | none => anomalies)
    []

/-! `gemini_agent.py` -/

/-- The `health_data` dict handed to `GeminiHealthAgent`: a `summary`
entry plus the merged `agent_results` (only read when building the prompt
string, which feeds the modelled completion service). Missing keys are
modelled by the defaults, matching `data.get(..., {})`. -/
structure HealthData where
  summary : Summary := {}
  agent_trends : List (String × TrendEntry) := []
  agent_anomalies : List Anomaly := []

/-- The structured insight dict shape produced by
`GeminiHealthAgent._extract_insights_from_text` and
`GeminiHealthAgent._fallback_insights`. -/
structure InsightData where
  wellness_score : ℚ
  recommendations : List String
  risks : List String
  positive_patterns : List String
  summary : String

/-- The insights value of a `GeminiHealthAgent` result: either the dict
decoded from the brace-delimited JSON substring of the response (kept as
the raw substring, JSON decoding being modelled by an uninterpreted
decoder), or a structured dict from the heuristic/fallback paths. -/
inductive GeminiInsights where
  | parsedJson (jsonText : String)
  | structured (d : InsightData)

/-- Lower-casing of a character list, modelling `str.lower()`. -/
def lower_chars (s : List Char) : List Char := s.map Char.toLower

/-- Does `pat` occur at the start of `s`? -/
def chars_begin : List Char → List Char → Bool
  | [], _ => true
  | _ :: _, [] => false
  | p :: ps, c :: cs => p = c && chars_begin ps cs

/-- Does `pat` occur as a contiguous substring of `s`? Models Python's
`pat in s`. -/
def chars_contain (s pat : List Char) : Bool :=
  match s with
  | [] => pat.isEmpty
  | _ :: rest => chars_begin pat s || chars_contain rest pat

/-- Whitespace test for `str.strip()`. -/
def is_space (c : Char) : Bool := c = ' ' || c = '\t' || c = '\n' || c = '\r'

/-- Models `str.strip()`: drop whitespace from both ends. -/
def strip_chars (s : List Char) : List Char :=
  ((s.dropWhile is_space).reverse.dropWhile is_space).reverse

/-- Case-insensitive substring test `pat in line.lower()`. -/
def line_contains (line pat : String) : Bool :=
  chars_contain (lower_chars line.toList) pat.toList

/-- Models `GeminiHealthAgent._extract_insights_from_text`: split the text into
lines, strip each, and classify by the substrings "recommend", "risk",
"positive"/"good" (first match wins per line). -/
def extract_insights_from_text (text : String) : InsightData :=
  let lines := (List.splitOn '\n' text.toList).map (fun cs => String.mk (strip_chars cs))
  let init : InsightData :=
    { wellness_score := 75, recommendations := [], risks := []
    , positive_patterns := [], summary := "Analysis completed" }
  lines.foldl
    (fun ins line =>
      if line_contains line "recommend" then
        { ins with recommendations := ins.recommendations ++ [line] }
      else if line_contains line "risk" then
        { ins with risks := ins.risks ++ [line] }
      else if line_contains line "positive" || line_contains line "good" then
        { ins with positive_patterns := ins.positive_patterns ++ [line] }
      else ins)
    init

/-- Models `text[text.find('\x7b') : text.rfind('\x7d') + 1]`: the slice from the
first opening brace to just past the last closing brace (empty when no
closing brace follows, as in Python where `rfind` returns `-1` and the
slice end becomes `0`). -/
def brace_slice (cs : List Char) : List Char :=
  let start := cs.indexOf '\x7b'
  let stop := cs.length - cs.reverse.indexOf '\x7d'
  (cs.take stop).drop start

/-- Same slice for square brackets, used by the navbar list endpoints. -/
def bracket_slice (cs : List Char) : List Char :=
  let start := cs.indexOf '['
  let stop := cs.length - cs.reverse.indexOf ']'
  (cs.take stop).drop start

/-- Models `GeminiHealthAgent._parse_gemini_response`: when the response contains
an opening brace (Python's `start != -1 and end != -1` reduces to this,
`end` being `rfind + 1 ≥ 0`), try to JSON-decode the brace-delimited
substring; on decode failure, or with no brace at all, fall back to the
heuristic line scan. `json_decode_ok` models whether `json.loads`
succeeds on the substring. -/
def parse_gemini_response (json_decode_ok : String → Bool) (response_text : String) :
    GeminiInsights :=
  let cs := response_text.toList
  if cs.contains '\x7b' then
    let json_str := String.mk (brace_slice cs)
    if json_decode_ok json_str then .parsedJson json_str
    else .structured (extract_insights_from_text response_text)
  else .structured (extract_insights_from_text response_text)

/-- Models `GeminiHealthAgent._fallback_insights`. -/
def fallback_insights (data : HealthData) : InsightData :=
  let summary := data.summary
  let steps := summary.steps_avg_7d
  let sleep := summary.sleep_avg_7d
  let hr := summary.heart_rate_avg_7d
  let recommendations :=
    (if steps < 8000 then ["Increase daily steps to 8,000+"] else []) ++
    (if sleep < 7 then ["Aim for 7-9 hours of sleep"] else []) ++
    (if hr > 85 then ["Monitor heart rate patterns"] else [])
  { wellness_score := min 100 (max 0 (steps / 100 + sleep * 10 + (100 - hr)))
  , recommendations := recommendations.take 3
  , risks := ["Insufficient data for risk assessment"]
  , positive_patterns := ["Regular health monitoring"]
  , summary := "Basic health assessment completed" }

/-- The result dict of `GeminiHealthAgent.generate_health_insights`;
absent keys are `none`. -/
structure GenResult where
  status : String
  insights : Option GeminiInsights
  confidence : Option ℚ
  source : Option String
  error : Option String

/-- Models `GeminiHealthAgent.generate_health_insights`. The completion call is
the only statement inside the `try` block that can raise (prompt building
is pure string formatting on a typed dict, and every parsing failure is
handled inside `_parse_gemini_response`); a raised exception is the
`.error` case and lands in the `except` branch. -/
def generate_health_insights (json_decode_ok : String → Bool)
    (completion : Except String String) (health_data : HealthData) : GenResult :=
  match completion with
  | .ok response_text =>
      { status := "success"
      , insights := some (parse_gemini_response json_decode_ok response_text)
      , confidence := some (9/10)
      , source := some "gemini-pro"
      , error := none }
  | .error e =>
      { status := "error"
      , insights := some (.structured (fallback_insights health_data))
      , confidence := none
      , source := none
      , error := some e }

/-! `navbar_ai.py` -/

/-- Models `MetricsInput`: pydantic `Optional[float] = 0` fields accept an
explicit JSON `null` (the `none` value) as well as a number; a missing
key takes the default `0`. -/
structure MetricsInput where
  avgSteps : Option ℚ := some 0
  avgHeartRate : Option ℚ := some 0
  avgSleep : Option ℚ := some 0
  avgWater : Option ℚ := some 0

/-- Models `NavGreetingRequest`. -/
structure NavGreetingRequest where
  metrics : MetricsInput
  timestamp : String

/-- Models `HealthStatusRequest`. -/
structure HealthStatusRequest where
  metrics : MetricsInput

/-- Models `NavRecommendationsRequest`. -/
structure NavRecommendationsRequest where
  metrics : MetricsInput
  currentPage : String

/-- Models `ActionItemsRequest`. -/
structure ActionItemsRequest where
  metrics : MetricsInput

/-- One entry of the `anomalies` payload of `HealthAlertRequest`: an open
dict read only through `a.get('reason', ...)`. -/
structure AnomalyPayload where
  reason : Option String := none

/-- Models `HealthAlertRequest` (the anomalies list defaults to empty). -/
structure HealthAlertRequest where
  anomalies : List AnomalyPayload := []

/-- The health-status badge dict. -/
structure StatusBadge where
  status : String
  color : String
  score : ℚ

/-- One navigation recommendation dict. -/
structure NavRec where
  label : String
  icon : String
  path : String

/-- One action-item dict. -/
structure ActionItem where
  title : String
  message : String
  urgency : String
  action : String

/-- The alert dict (`alert_type` models the `type` key, a reserved word
here). -/
structure AlertOut where
  alert_type : String
  message : String
  details : String

/-- The `TypeError` raised when a comparison, arithmetic operation or
format spec hits a `None` metric value. -/
def none_type_error : String :=
  "TypeError: unsupported operand or comparison with NoneType"

/-- Does the prompt f-string of the LLM helpers format without error?
Every helper prompt formats all four metrics with `:.0f`-style specs, so
it raises `TypeError` iff some metric is `None`. -/
def prompt_formats_ok (metrics : MetricsInput) : Bool :=
  metrics.avgSteps.isSome && metrics.avgHeartRate.isSome &&
    metrics.avgSleep.isSome && metrics.avgWater.isSome

/-- The greeting text of `generate_mock_greeting` for a present steps
value; `hour` is hard-coded to 12. -/
def mock_greeting_text (steps : ℚ) : String :=
  let hour : Nat := 12
  let time_of_day := if hour < 17 then "afternoon" else "evening"
  let steps_status :=
    if steps ≥ 8000 then "Great job with your steps"
    else if steps ≥ 5000 then "Keep moving"
    else "Time to get active"
  "Good " ++ time_of_day ++ "! " ++ steps_status ++ "."

/-- Models `generate_mock_greeting`: `metrics.avgSteps >= 8000` raises
`TypeError` when the value is `None`. -/
def generate_mock_greeting (metrics : MetricsInput) : Except String String :=
  match metrics.avgSteps with
  | none => .error none_type_error
  | some steps => .ok (mock_greeting_text steps)

/-- The badge of `generate_mock_health_status` for present metric
values. -/
def mock_health_status_core (steps hr sleep water : ℚ) : StatusBadge :=
  let score := steps / 10000 * (3/10) + sleep / 8 * (3/10) +
    (100 - |hr - 70|) / 100 * (2/10) + water / (5/2) * (2/10)
  if score ≥ 8/10 then { status := "Excellent", color := "emerald", score := 85 }
  else if score ≥ 6/10 then { status := "Good", color := "blue", score := 72 }
  else { status := "Needs Attention", color := "red", score := 45 }

/-- Models `generate_mock_health_status`: the score expression evaluates
steps, sleep, heart rate, water left to right and raises `TypeError` at
the first `None`. -/
def generate_mock_health_status (metrics : MetricsInput) :
    Except String StatusBadge :=
  match metrics.avgSteps with
  | none => .error none_type_error
  | some steps =>
    match metrics.avgSleep with
    | none => .error none_type_error
    | some sleep =>
      match metrics.avgHeartRate with
      | none => .error none_type_error
      | some hr =>
        match metrics.avgWater with
        | none => .error none_type_error
        | some water => .ok (mock_health_status_core steps hr sleep water)

/-- The `recommendations_map["/"]` entry, also the `dict.get` default. -/
def home_recommendations : List NavRec :=
  [ { label := "View Trends", icon := "TrendingUp", path := "/trends" }
  , { label := "Get Insights", icon := "Lightbulb", path := "/insights" } ]

/-- Models `generate_mock_nav_recommendations` (reads no metrics, so it
cannot raise). -/
def generate_mock_nav_recommendations (current_page : String) : List NavRec :=
  if current_page = "/" then home_recommendations
  else if current_page = "/trends" then
    [ { label := "Check Forecast", icon := "Zap", path := "/forecast" }
    , { label := "View Dashboard", icon := "BarChart3", path := "/" } ]
  else if current_page = "/insights" then
    [ { label := "Chat with AI", icon := "MessageCircle", path := "/health-assistant" }
    , { label := "Wellness Hub", icon := "Heart", path := "/wellness-center" } ]
  else home_recommendations

/-- The items of `generate_mock_action_items` for present steps and sleep
values. -/
def mock_action_items_core (steps sleep : ℚ) : List ActionItem :=
  let items :=
    (if steps < 5000 then
      [ { title := "Low Activity", message := "Try a 15-minute walk"
        , urgency := "high", action := "/wellness-center" } ]
     else []) ++
    (if sleep < 13/2 then
      [ { title := "Inadequate Sleep", message := "Aim for 7-9 hours tonight"
        , urgency := "high", action := "/insights" } ]
     else [])
  if items.isEmpty then
    [ { title := "Keep it Up!", message := "Your health looks great"
      , urgency := "low", action := "/" } ]
  else items

/-- Models `generate_mock_action_items`: `metrics.avgSteps < 5000` is
evaluated first, then `metrics.avgSleep < 6.5`; a `None` value raises
`TypeError` at that point. -/
def generate_mock_action_items (metrics : MetricsInput) :
    Except String (List ActionItem) :=
  match metrics.avgSteps with
  | none => .error none_type_error
  | some steps =>
    match metrics.avgSleep with
    | none => .error none_type_error
    | some sleep => .ok (mock_action_items_core steps sleep)

/-- Models `generate_mock_alert` (reads no metrics, so it cannot
raise). -/
def generate_mock_alert (anomalies : List AnomalyPayload) : Option AlertOut :=
  match anomalies with
  | [] => none
  | a :: rest =>
    let n := rest.length + 1
    some { alert_type := "warning"
         , message := toString n ++ " metrics need attention"
         , details := a.reason.getD "Review your health data" }

/-- Models `str.strip('\"')`: drop double quotes from both ends. -/
def strip_quote_chars (cs : List Char) : List Char :=
  ((cs.dropWhile (fun c => c = '\"')).reverse.dropWhile (fun c => c = '\"')).reverse

/-- Models `generate_greeting_with_llm`. An exception from building the
prompt (a `None` metric) or from the completion call is caught and
answered with the mock; a `TypeError` raised by the mock itself — also
when the library is unavailable and the mock is called outside the
`try` — propagates to the route handler (the `.error` result). -/
def generate_greeting_with_llm (gemini_available : Bool)
    (completion : Except String String) (metrics : MetricsInput)
    (_timestamp : String) : Except String String :=
  if ¬ gemini_available then generate_mock_greeting metrics
  else if ¬ prompt_formats_ok metrics then generate_mock_greeting metrics
  else
    match completion with
    | .error _ => generate_mock_greeting metrics
    | .ok response_text =>
      let greeting := String.mk (strip_quote_chars (strip_chars response_text.toList))
      .ok (if greeting.length > 100 then String.mk (greeting.toList.take 97) ++ "..."
        else greeting)

/-- Models `generate_health_status_with_llm`; `json_decode_status` models
`json.loads` plus the shape of the decoded dict, `none` standing for a
raised `JSONDecodeError` (caught by the enclosing `except`, which falls
back to the mock — itself fallible on `None` metrics). -/
def generate_health_status_with_llm (gemini_available : Bool)
    (completion : Except String String)
    (json_decode_status : String → Option StatusBadge)
    (metrics : MetricsInput) : Except String StatusBadge :=
  if ¬ gemini_available then generate_mock_health_status metrics
  else if ¬ prompt_formats_ok metrics then generate_mock_health_status metrics
  else
    match completion with
    | .error _ => generate_mock_health_status metrics
    | .ok response_text =>
      let text := String.mk (strip_chars response_text.toList)
      if text.toList.contains '\x7b' then
        match json_decode_status (String.mk (brace_slice text.toList)) with
        | some result => .ok result
        | none => generate_mock_health_status metrics
      else generate_mock_health_status metrics

/-- Models `generate_nav_recommendations_with_llm`: its mock reads no
metrics, so every failure path (prompt `TypeError` on a `None` metric,
completion exception, decode failure) resolves to the mock. -/
def generate_nav_recommendations_with_llm (gemini_available : Bool)
    (completion : Except String String)
    (json_decode_recs : String → Option (List NavRec))
    (metrics : MetricsInput) (current_page : String) : List NavRec :=
  if ¬ gemini_available then generate_mock_nav_recommendations current_page
  else if ¬ prompt_formats_ok metrics then generate_mock_nav_recommendations current_page
  else
    match completion with
    | .error _ => generate_mock_nav_recommendations current_page
    | .ok response_text =>
      let text := String.mk (strip_chars response_text.toList)
      if text.toList.contains '[' then
        match json_decode_recs (String.mk (bracket_slice text.toList)) with
        | some recommendations => recommendations
        | none => generate_mock_nav_recommendations current_page
      else generate_mock_nav_recommendations current_page

/-- Models `generate_action_items_with_llm` (mock fallible on `None`
steps/sleep). -/
def generate_action_items_with_llm (gemini_available : Bool)
    (completion : Except String String)
    (json_decode_items : String → Option (List ActionItem))
    (metrics : MetricsInput) : Except String (List ActionItem) :=
  if ¬ gemini_available then generate_mock_action_items metrics
  else if ¬ prompt_formats_ok metrics then generate_mock_action_items metrics
  else
    match completion with
    | .error _ => generate_mock_action_items metrics
    | .ok response_text =>
      let text := String.mk (strip_chars response_text.toList)
      if text.toList.contains '[' then
        match json_decode_items (String.mk (bracket_slice text.toList)) with
        | some items => .ok items
        | none => generate_mock_action_items metrics
      else generate_mock_action_items metrics

/-- Models `generate_health_alert_with_llm`: the mock is also taken when
the anomalies list is empty; its prompt reads only the anomalies'
`reason` strings through `.get`, so it cannot raise. -/
def generate_health_alert_with_llm (gemini_available : Bool)
    (completion : Except String String)
    (json_decode_alert : String → Option AlertOut)
    (anomalies : List AnomalyPayload) : Option AlertOut :=
  if ¬ gemini_available ∨ anomalies.isEmpty then generate_mock_alert anomalies
  else
    match completion with
    | .error _ => generate_mock_alert anomalies
    | .ok response_text =>
      let text := String.mk (strip_chars response_text.toList)
      if text.toList.contains '\x7b' then
        match json_decode_alert (String.mk (brace_slice text.toList)) with
        | some alert => some alert
        | none => generate_mock_alert anomalies
      else generate_mock_alert anomalies

/-- An HTTP response of a route handler: 200 with a JSON body, or the
`HTTPException(status_code=500, ...)` raised in the handler's `except`
branch. -/
inductive HttpResult (α : Type) where
  | ok (body : α)
  | serverError (detail : String)

/-- The `/ai/navbar-greeting` route. Its `try` wraps the helper call; an
exception escaping the helper (a mock `TypeError` on a `None` metric)
lands in the 500 branch. -/
def navbar_greeting (gemini_available : Bool) (completion : Except String String)
    (request : NavGreetingRequest) : HttpResult String :=
  match generate_greeting_with_llm gemini_available completion request.metrics
    request.timestamp with
  | .ok greeting => .ok greeting
  | .error err => .serverError err

/-- The `/ai/health-status-badge` route. -/
def health_status_badge (gemini_available : Bool) (completion : Except String String)
    (json_decode_status : String → Option StatusBadge)
    (request : HealthStatusRequest) : HttpResult StatusBadge :=
  match generate_health_status_with_llm gemini_available completion
    json_decode_status request.metrics with
  | .ok status => .ok status
  | .error err => .serverError err

/-- The `/ai/nav-recommendations` route (its helper is total, so the 500
branch is dead code). -/
def nav_recommendations (gemini_available : Bool) (completion : Except String String)
    (json_decode_recs : String → Option (List NavRec))
    (request : NavRecommendationsRequest) : HttpResult (List NavRec) :=
  .ok (generate_nav_recommendations_with_llm gemini_available completion
    json_decode_recs request.metrics request.currentPage)

/-- The `/ai/action-items` route. -/
def action_items (gemini_available : Bool) (completion : Except String String)
    (json_decode_items : String → Option (List ActionItem))
    (request : ActionItemsRequest) : HttpResult (List ActionItem) :=
  match generate_action_items_with_llm gemini_available completion
    json_decode_items request.metrics with
  | .ok actions => .ok actions
  | .error err => .serverError err

/-- The `/ai/health-alert` route (its helper is total, so the 500 branch
is dead code). -/
def health_alert (gemini_available : Bool) (completion : Except String String)
    (json_decode_alert : String → Option AlertOut)
    (request : HealthAlertRequest) : HttpResult (Option AlertOut) :=
  .ok (generate_health_alert_with_llm gemini_available completion
    json_decode_alert request.anomalies)


/-! `session_memory.py` -/

/-- The `HealthSession` dataclass. `datetime` is an integer timestamp;
the open `data_summary`/`analysis_results` dicts are association lists of
string values. -/
structure HealthSession where
  session_id : String
  user_id : String
  timestamp : Int
  data_summary : List (String × String)
  analysis_results : List (String × String)
  wellness_score : ℚ
  recommendations : List String

/-- One value of `InMemorySessionService.session_state`: the dict
`{'status': ..., 'last_activity': ..., 'context': ...}`. -/
structure SessState where
  status : String
  last_activity : Int
  context : List (String × String)

/-- The `updates` dict merged by `dict.update` in `update_session_state`,
modelled over the state's known keys: `none` leaves a key untouched. -/
structure StateUpdates where
  status : Option String := none
  context : Option (List (String × String)) := none

/-- Models `InMemorySessionService`: the two dicts are association lists keyed
by session id (Python dicts have unique keys). -/
structure SessionStore where
  active_sessions : List (String × HealthSession)
  session_state : List (String × SessState)

/-- Models `InMemorySessionService.get_session`: `dict.get`, `none` when
absent. -/
def get_session (s : SessionStore) (session_id : String) : Option HealthSession :=
  s.active_sessions.lookup session_id

/-- Models `dict.update(updates)` on a state value. -/
def apply_updates (st : SessState) (u : StateUpdates) : SessState :=
  { st with status := u.status.getD st.status, context := u.context.getD st.context }

/-- Models `InMemorySessionService.update_session_state`: guarded by
`session_id in self.session_state`; merges the updates and stamps
`last_activity` with the current time. -/
def update_session_state (s : SessionStore) (session_id : String)
    (updates : StateUpdates) (now : Int) : SessionStore :=
  if (s.session_state.lookup session_id).isSome then
    { s with session_state := s.session_state.map (fun p =>
        if p.1 = session_id then
          (p.1, { apply_updates p.2 updates with last_activity := now })
        else p) }
  else s

/-- Models `InMemorySessionService.pause_session`: sets only the status flag (no
`last_activity` stamp). -/
def pause_session (s : SessionStore) (session_id : String) : SessionStore :=
  if (s.session_state.lookup session_id).isSome then
    { s with session_state := s.session_state.map (fun p =>
        if p.1 = session_id then (p.1, { p.2 with status := "paused" }) else p) }
  else s

/-- Models `InMemorySessionService.resume_session`: sets the status flag and
stamps `last_activity`. -/
def resume_session (s : SessionStore) (session_id : String) (now : Int) : SessionStore :=
  if (s.session_state.lookup session_id).isSome then
    { s with session_state := s.session_state.map (fun p =>
        if p.1 = session_id then
          (p.1, { p.2 with status := "active", last_activity := now })
        else p) }
  else s

/-- Models `InMemorySessionService.cleanup_expired_sessions`: collect the ids
whose state's `last_activity` is strictly before `now - timedelta(hours)`,
pop each from both dicts, and return the new store together with
`len(expired)`. -/
def cleanup_expired_sessions (s : SessionStore) (now : Int) (hours : Int) :
    SessionStore × Nat :=
  let cutoff := now - hours * 3600
  let expired := (s.session_state.filter
    (fun p => decide (p.2.last_activity < cutoff))).map (fun p => p.1)
  ( { active_sessions := s.active_sessions.filter (fun p => !(decide (p.1 ∈ expired)))
    , session_state := s.session_state.filter (fun p => !(decide (p.1 ∈ expired))) }
  , expired.length )

/-- The `pattern_data` dict stored by
`HealthMemoryManager._identify_patterns`. -/
structure UserPatternData where
  average_score : ℚ
  trend : String
  consistency : String

/-- One row of the `user_patterns` table (sans its composite key). -/
structure UserPattern where
  pattern_data : UserPatternData
  confidence : ℚ
  last_updated : Int

/-- Models `MemoryBank`: the `sessions` table keyed by its `session_id` primary
key and the `user_patterns` table keyed by `(user_id, pattern_type)`. -/
structure MemoryBank where
  sessions : List (String × HealthSession)
  user_patterns : List ((String × String) × UserPattern)

/-- Models `MemoryBank.store_session`: `INSERT OR REPLACE` on the `session_id`
primary key. -/
def store_session (bank : MemoryBank) (session : HealthSession) : MemoryBank :=
  { bank with sessions :=
      bank.sessions.filter (fun p => !(p.1 == session.session_id)) ++
        [(session.session_id, session)] }

/-- Models `MemoryBank.get_user_history`: rows of the given user with
`timestamp >= now - timedelta(days)`, ordered newest first. -/
def get_user_history (bank : MemoryBank) (user_id : String) (days : Int) (now : Int) :
    List HealthSession :=
  let cutoff := now - days * 86400
  let rows := (bank.sessions.filter
    (fun p => p.2.user_id == user_id && decide (cutoff ≤ p.2.timestamp))).map
    (fun p => p.2)
  rows.mergeSort (fun a b => decide (b.timestamp ≤ a.timestamp))

/-- Models `MemoryBank.store_user_pattern`: `INSERT OR REPLACE` on the
`(user_id, pattern_type)` primary key. -/
def store_user_pattern (bank : MemoryBank) (user_id pattern_type : String)
    (pattern_data : UserPatternData) (confidence : ℚ) (now : Int) : MemoryBank :=
  { bank with user_patterns :=
      bank.user_patterns.filter (fun p => !(p.1 == (user_id, pattern_type))) ++
        [((user_id, pattern_type),
          { pattern_data := pattern_data, confidence := confidence
          , last_updated := now })] }

/-- Python `max` over a nonempty rational list. -/
def rat_list_max (l : List ℚ) : ℚ := l.foldl max (l.getD 0 0)

/-- Python `min` over a nonempty rational list. -/
def rat_list_min (l : List ℚ) : ℚ := l.foldl min (l.getD 0 0)

/-- Models `HealthMemoryManager._identify_patterns`: with at least three recent
sessions, upsert a `wellness_trend` pattern computed from the (so named)
`sleep_scores`, which actually hold the histories' wellness scores. Only
the `user_patterns` table is written. -/
def identify_patterns (bank : MemoryBank) (session : HealthSession) (now : Int) :
    MemoryBank :=
  let history := get_user_history bank session.user_id 14 now
  if history.length ≥ 3 then
    let sleep_scores := history.map (fun h => h.wellness_score)
    if sleep_scores.length ≥ 3 then
      let avg_score := sleep_scores.foldl (· + ·) 0 / (sleep_scores.length : ℚ)
      let trend :=
        if sleep_scores.getD 0 0 > sleep_scores.getD (sleep_scores.length - 1) 0 then
          "improving"
        else "stable"
      let consistency :=
        if rat_list_max sleep_scores - rat_list_min sleep_scores < 10 then "high"
        else "variable"
      store_user_pattern bank session.user_id "wellness_trend"
        { average_score := avg_score, trend := trend, consistency := consistency }
        (4/5) now
    else bank
  else bank

/-- Models `HealthMemoryManager`: the in-memory session service plus the durable
memory bank. -/
structure HealthMemoryManager where
  session_service : SessionStore
  memory_bank : MemoryBank

/-- Models `HealthMemoryManager.finalize_session`: look up the active session;
when present, store it durably and run pattern identification. The
active-session map is not modified. -/
def finalize_session (mgr : HealthMemoryManager) (session_id : String) (now : Int) :
    HealthMemoryManager :=
  match get_session mgr.session_service session_id with
  | none => mgr
  | some session =>
    let bank := store_session mgr.memory_bank session
    { mgr with memory_bank := identify_patterns bank session now }

/-- A concrete session used by witnesses. -/
def demo_session : HealthSession :=
  { session_id := "s1", user_id := "u1", timestamp := 0
  , data_summary := [], analysis_results := []
  , wellness_score := 50, recommendations := [] }

/-- A concrete manager holding one active session, used by witnesses. -/
def demo_manager : HealthMemoryManager :=
  { session_service :=
      { active_sessions := [("s1", demo_session)]
      , session_state := [("s1", { status := "active", last_activity := 0, context := [] })] }
  , memory_bank := { sessions := [], user_patterns := [] } }

/-- A concrete store with one stale session, used by witnesses. -/
def demo_store : SessionStore :=
  { active_sessions := [("a", demo_session)]
  , session_state := [("a", { status := "active", last_activity := 0, context := [] })] }

/-- The empty store, used by witnesses. -/
def empty_store : SessionStore :=
  { active_sessions := [], session_state := [] }

/-- The per-metric `values` list of `TrendAnalysisAgent._analyze`. -/
def metric_values (timeseries : List HealthRecord) (name : String) : List ℚ :=
  (timeseries.filter (fun r => r.metric = name)).map (fun r => r.value)

/-- Models `values[0]` of `TrendAnalysisAgent._analyze`. -/
def first_metric_value (timeseries : List HealthRecord) (name : String) : ℚ :=
  (metric_values timeseries name).getD 0 0

/-- Models `values[-1]` of `TrendAnalysisAgent._analyze`. -/
def last_metric_value (timeseries : List HealthRecord) (name : String) : ℚ :=
  (metric_values timeseries name).getD ((metric_values timeseries name).length - 1) 0

/-! Helper lemmas. -/

theorem le_roundHalfEven {q : ℚ} {n : ℤ} (h : (n : ℚ) ≤ q) : n ≤ roundHalfEven q := by
  have hfl : n ≤ ⌊q⌋ := Int.le_floor.mpr h
  unfold roundHalfEven
  split_ifs <;> omega

theorem roundHalfEven_le {q : ℚ} {n : ℤ} (h : q ≤ (n : ℚ)) : roundHalfEven q ≤ n := by
  have hfl : ⌊q⌋ ≤ n := by
    have h1 : ⌊q⌋ ≤ ⌊(n : ℚ)⌋ := Int.floor_le_floor h
    simpa using h1
  rcases lt_or_eq_of_le hfl with hlt | heq
  · unfold roundHalfEven
    split_ifs <;> omega
  · have hq : q = (n : ℚ) := by
      refine le_antisymm h ?_
      calc (n : ℚ) = (⌊q⌋ : ℚ) := by exact_mod_cast heq.symm
        _ ≤ q := Int.floor_le q
    unfold roundHalfEven
    rw [hq]
    simp

theorem pyRound1_bounds {q : ℚ} (h0 : 0 ≤ q) (h1 : q ≤ 100) :
    0 ≤ pyRound1 q ∧ pyRound1 q ≤ 100 := by
  have hl : (0 : ℤ) ≤ roundHalfEven (q * 10) := le_roundHalfEven (by push_cast; linarith)
  have hu : roundHalfEven (q * 10) ≤ (1000 : ℤ) := roundHalfEven_le (by push_cast; linarith)
  have hl' : (0 : ℚ) ≤ (roundHalfEven (q * 10) : ℚ) := by exact_mod_cast hl
  have hu' : ((roundHalfEven (q * 10) : ℚ)) ≤ 1000 := by exact_mod_cast hu
  unfold pyRound1
  constructor <;> linarith

theorem pyRound2_zero : pyRound2 0 = 0 := by
  norm_num [pyRound2, roundHalfEven]

theorem steps_score_bounds (x : ℚ) : 0 ≤ steps_score x ∧ steps_score x ≤ 25 := by
  unfold steps_score
  split_ifs with h1 h2 h3
  · norm_num
  · norm_num
  · norm_num
  · push_neg at h3
    refine ⟨le_max_left 0 _, max_le (by norm_num) (by linarith)⟩

theorem sleep_score_bounds (x : ℚ) : 0 ≤ sleep_score x ∧ sleep_score x ≤ 25 := by
  unfold sleep_score
  split_ifs with h1 h2
  · norm_num
  · norm_num
  · have := abs_nonneg (x - 8)
    refine ⟨le_max_left 0 _, max_le (by norm_num) (by linarith)⟩

theorem heart_rate_score_bounds (x : ℚ) : 0 ≤ heart_rate_score x ∧ heart_rate_score x ≤ 25 := by
  unfold heart_rate_score
  split_ifs with h1 h2
  · norm_num
  · norm_num
  · have := abs_nonneg (x - 70)
    refine ⟨le_max_left 0 _, max_le (by norm_num) (by linarith)⟩

theorem water_score_bounds (x : ℚ) : 0 ≤ water_score x ∧ water_score x ≤ 25 := by
  unfold water_score
  split_ifs with h1 h2
  · norm_num
  · norm_num
  · push_neg at h2
    refine ⟨le_max_left 0 _, max_le (by norm_num) (by linarith)⟩

theorem steps_score_eq_floored_spec (x : ℚ) :
    steps_score x = max 0 (spec_steps_subscore x) := by
  unfold steps_score spec_steps_subscore
  split_ifs <;> simp

theorem sleep_score_eq_floored_spec (x : ℚ) :
    sleep_score x = max 0 (spec_sleep_subscore x) := by
  unfold sleep_score spec_sleep_subscore
  split_ifs <;> simp

theorem heart_rate_score_eq_floored_spec (x : ℚ) :
    heart_rate_score x = max 0 (spec_heart_rate_subscore x) := by
  unfold heart_rate_score spec_heart_rate_subscore
  split_ifs <;> simp

theorem water_score_eq_floored_spec (x : ℚ) :
    water_score x = max 0 (spec_water_subscore x) := by
  unfold water_score spec_water_subscore
  split_ifs <;> simp

theorem calculate_wellness_score_bounds (s : Summary) :
    0 ≤ calculate_wellness_score s ∧ calculate_wellness_score s ≤ 100 := by
  obtain ⟨a0, a1⟩ := steps_score_bounds s.steps_avg_7d
  obtain ⟨b0, b1⟩ := sleep_score_bounds s.sleep_avg_7d
  obtain ⟨c0, c1⟩ := heart_rate_score_bounds s.heart_rate_avg_7d
  obtain ⟨d0, d1⟩ := water_score_bounds s.water_avg_7d
  unfold calculate_wellness_score
  rw [if_pos (by norm_num)]
  have hdiv : (steps_score s.steps_avg_7d + sleep_score s.sleep_avg_7d +
      heart_rate_score s.heart_rate_avg_7d + water_score s.water_avg_7d) /
      (25 + 25 + 25 + 25) * 100 =
      steps_score s.steps_avg_7d + sleep_score s.sleep_avg_7d +
      heart_rate_score s.heart_rate_avg_7d + water_score s.water_avg_7d := by
    field_simp
    norm_num
  rw [hdiv]
  exact pyRound1_bounds (by linarith) (by linarith)

theorem calculate_wellness_score_perfect :
    calculate_wellness_score
      { steps_avg_7d := 10000, heart_rate_avg_7d := 70, sleep_avg_7d := 8
      , water_avg_7d := 2000 } = 100 := by
  norm_num [calculate_wellness_score, steps_score, sleep_score, heart_rate_score,
    water_score, pyRound1, roundHalfEven]

/-- Claim C2 (amended): every sub-score of the Wellness Scorer equals the
spec's piecewise table with the else branch floored at 0 (`max 0 ·`, as
the spec already states for sleep); each sub-score lies in [0,25]; the
total score lies in [0,100]; and steps=10000, sleep=8, heart_rate=70,
water=2000 scores exactly 100. -/
theorem wellness_scorer_spec (s : Summary) :
    steps_score s.steps_avg_7d = max 0 (spec_steps_subscore s.steps_avg_7d) ∧
    sleep_score s.sleep_avg_7d = max 0 (spec_sleep_subscore s.sleep_avg_7d) ∧
    heart_rate_score s.heart_rate_avg_7d =
      max 0 (spec_heart_rate_subscore s.heart_rate_avg_7d) ∧
    water_score s.water_avg_7d = max 0 (spec_water_subscore s.water_avg_7d) ∧
    (0 ≤ steps_score s.steps_avg_7d ∧ steps_score s.steps_avg_7d ≤ 25) ∧
    (0 ≤ sleep_score s.sleep_avg_7d ∧ sleep_score s.sleep_avg_7d ≤ 25) ∧
    (0 ≤ heart_rate_score s.heart_rate_avg_7d ∧
      heart_rate_score s.heart_rate_avg_7d ≤ 25) ∧
    (0 ≤ water_score s.water_avg_7d ∧ water_score s.water_avg_7d ≤ 25) ∧
    (0 ≤ calculate_wellness_score s ∧ calculate_wellness_score s ≤ 100) ∧
    calculate_wellness_score
      { steps_avg_7d := 10000, heart_rate_avg_7d := 70, sleep_avg_7d := 8
      , water_avg_7d := 2000 } = 100 :=
  ⟨steps_score_eq_floored_spec _, sleep_score_eq_floored_spec _,
   heart_rate_score_eq_floored_spec _, water_score_eq_floored_spec _,
   steps_score_bounds _, sleep_score_bounds _, heart_rate_score_bounds _,
   water_score_bounds _, calculate_wellness_score_bounds s,
   calculate_wellness_score_perfect⟩

/-- Claim C2 counterexample: at a heart-rate average of 91 the code's
sub-score is 0 (the `max(0, ...)` floor), while the spec's literal
piecewise table gives `25 - |91-70|*2 = -17`; so the code does not
compute the table's value, and the table's value is not in [0,25]. -/
theorem wellness_scorer_counterexample :
    heart_rate_score 91 = 0 ∧ spec_heart_rate_subscore 91 = -17 ∧
    heart_rate_score 91 ≠ spec_heart_rate_subscore 91 := by
  have habs : |(91 : ℚ) - 70| = 21 := by
    rw [show (91 : ℚ) - 70 = 21 by norm_num]
    exact abs_of_pos (by norm_num)
  unfold heart_rate_score spec_heart_rate_subscore
  rw [if_neg (by norm_num), if_neg (by norm_num), if_neg (by norm_num),
    if_neg (by norm_num), habs]
  norm_num

theorem lookup_keyed_filterMap_of_not_mem {α : Type} (f : String → Option α)
    (names : List String) (m : String) (hm : m ∉ names) :
    (names.filterMap (fun n => (f n).map (fun e => (n, e)))).lookup m = none := by
  induction names with
  | nil => rfl
  | cons n ns ih =>
    have hmn : m ≠ n := fun h => hm (h ▸ List.mem_cons_self n ns)
    have hmns : m ∉ ns := fun h => hm (List.mem_cons_of_mem _ h)
    have hbeq : (m == n) = false := beq_false_of_ne hmn
    simp only [List.filterMap_cons]
    cases hfn : f n with
    | none => exact ih hmns
    | some e => simp [List.lookup, hbeq, ih hmns]

theorem lookup_keyed_filterMap {α : Type} (f : String → Option α)
    (names : List String) (hnd : names.Nodup) (m : String) (hm : m ∈ names) :
    (names.filterMap (fun n => (f n).map (fun e => (n, e)))).lookup m = f m := by
  induction names with
  | nil => cases hm
  | cons n ns ih =>
    obtain ⟨hn, hnd'⟩ := List.nodup_cons.mp hnd
    simp only [List.filterMap_cons]
    rcases List.mem_cons.mp hm with rfl | hmem
    · cases hfn : f m with
      | none => exact lookup_keyed_filterMap_of_not_mem f ns m hn
      | some e => simp [List.lookup, hfn]
    · have hmn : m ≠ n := fun h => hn (h ▸ hmem)
      have hbeq : (m == n) = false := beq_false_of_ne hmn
      cases hfn : f n with
      | none => exact ih hnd' hmem
      | some e => simp [List.lookup, hbeq, ih hnd' hmem]

theorem analyze_trends_lookup (ts : List HealthRecord) (name : String)
    (hname : name ∈ tracked_metrics) :
    (analyze_trends ts).lookup name = analyze_metric_trend ts name :=
  lookup_keyed_filterMap (analyze_metric_trend ts) tracked_metrics (by decide)
    name hname

/-- Claim C3 (amended): for each tracked metric, a trend entry is emitted
iff the metric has at least 2 observations (fewer are silently omitted);
its direction is "increasing" exactly when the last listed value strictly
exceeds the first listed value and "decreasing" otherwise (the agent uses
input order, not day order); and its change_percent is
`round(((last - first) / first) * 100, 2)` when the first value is
positive, else 0. -/
theorem trend_detector_spec (ts : List HealthRecord) (name : String)
    (hname : name ∈ tracked_metrics) :
    ((analyze_trends ts).lookup name = none ↔ (metric_values ts name).length < 2) ∧
    ∀ e : TrendEntry, (analyze_trends ts).lookup name = some e →
      (metric_values ts name).length ≥ 2 ∧
      (e.trend = "increasing" ∨ e.trend = "decreasing") ∧
      (e.trend = "increasing" ↔
        first_metric_value ts name < last_metric_value ts name) ∧
      (e.trend = "decreasing" ↔
        ¬ first_metric_value ts name < last_metric_value ts name) ∧
      e.change_percent =
        (if 0 < first_metric_value ts name then
          pyRound2 ((last_metric_value ts name - first_metric_value ts name) /
            first_metric_value ts name * 100)
        else 0) := by
  rw [analyze_trends_lookup ts name hname]
  unfold analyze_metric_trend
  have hlen : (metric_values ts name).length =
      (ts.filter (fun item => item.metric = name)).length := List.length_map _ _
  by_cases hge : (ts.filter (fun item => item.metric = name)).length ≥ 2
  · rw [if_pos hge]
    refine ⟨⟨fun h => absurd h (Option.some_ne_none _),
      fun h => absurd hge (by rw [hlen] at h; omega)⟩, ?_⟩
    intro e he
    rw [Option.some_inj] at he
    subst he
    unfold first_metric_value last_metric_value metric_values
    dsimp only
    refine ⟨?_, ?_, ?_, ?_, ?_⟩
    · rw [List.length_map]; exact hge
    · split_ifs <;> simp
    · split_ifs with hc
      · exact iff_of_true rfl hc
      · exact iff_of_false (by decide) hc
    · split_ifs with hc
      · exact iff_of_false (by decide) (not_not_intro hc)
      · exact iff_of_true rfl hc
    · split_ifs with hc
      · rfl
      · exact pyRound2_zero
  · rw [if_neg hge]
    refine ⟨iff_of_true rfl (by rw [hlen]; omega), ?_⟩
    intro e he
    cases he

/-- Claim C3 counterexample: on a two-record steps series listed in
reverse day order (day "2024-01-02" value 4 first, day "2024-01-01"
value 3 second), the chronologically-last value 4 strictly exceeds the
chronologically-first value 3, yet the code reports "decreasing" with
change_percent -25; moreover -25 is not the claim's exact
(last-first)/first*100 = 100/3 under either reading. -/
theorem trend_detector_counterexample :
    (analyze_trends
      [ { metric := "steps", value := 4, day := "2024-01-02" }
      , { metric := "steps", value := 3, day := "2024-01-01" } ]).lookup "steps" =
      some { trend := "decreasing", change_percent := -25
           , recommendation := "Consider increasing daily physical activity" } ∧
    "2024-01-01".toList < "2024-01-02".toList ∧
    (3 : ℚ) < 4 ∧
    ("decreasing" : String) ≠ "increasing" ∧
    ((-25 : ℚ) ≠ (4 - 3) / 3 * 100) := by
  refine ⟨?_, by decide, by norm_num, by decide, by norm_num⟩
  rw [analyze_trends_lookup _ _ (by decide)]
  norm_num [analyze_metric_trend, List.filter, List.getD, get_trend_recommendation,
    pyRound2, roundHalfEven]

/-- Witness for the amended claim C3 at the empty series and the tracked
metric "steps". -/
theorem trend_detector_spec_witness :
    ("steps" ∈ tracked_metrics) ∧
    (((analyze_trends ([] : List HealthRecord)).lookup "steps" = none ↔
        (metric_values [] "steps").length < 2) ∧
      ∀ e : TrendEntry,
        (analyze_trends ([] : List HealthRecord)).lookup "steps" = some e →
        (metric_values [] "steps").length ≥ 2 ∧
        (e.trend = "increasing" ∨ e.trend = "decreasing") ∧
        (e.trend = "increasing" ↔
          first_metric_value [] "steps" < last_metric_value [] "steps") ∧
        (e.trend = "decreasing" ↔
          ¬ first_metric_value [] "steps" < last_metric_value [] "steps") ∧
        e.change_percent =
          (if 0 < first_metric_value [] "steps" then
            pyRound2 ((last_metric_value [] "steps" - first_metric_value [] "steps") /
              first_metric_value [] "steps" * 100)
          else 0)) :=
  ⟨by decide, trend_detector_spec [] "steps" (by decide)⟩

theorem detect_anomalies_loop (ts : List HealthRecord) (acc : List Anomaly) :
    ts.foldl (fun anomalies item =>
      match record_anomaly item with
      | some a => anomalies ++ [a]
      | none => anomalies) acc = acc ++ ts.filterMap record_anomaly := by
  induction ts generalizing acc with
  | nil => simp
  | cons r rest ih =>
    simp only [List.foldl_cons, List.filterMap_cons]
    cases h : record_anomaly r with
    | none => simp only [h]; exact ih acc
    | some a => simp only [h]; rw [ih (acc ++ [a])]; simp

theorem detect_anomalies_eq (ts : List HealthRecord) :
    detect_anomalies ts = ts.filterMap record_anomaly := by
  unfold detect_anomalies
  simpa using detect_anomalies_loop ts []

theorem length_filterMap_record_anomaly (ts : List HealthRecord) :
    (ts.filterMap record_anomaly).length =
      ts.countP (fun r => (record_anomaly r).isSome) := by
  induction ts with
  | nil => rfl
  | cons r rest ih =>
    cases h : record_anomaly r <;>
      simp [List.filterMap_cons, List.countP_cons, h, ih]

/-- Claim C4: the Anomaly Detector emits exactly one anomaly per record
matched by its if/elif chain, in both directions — every record with
heart_rate > 100 produces the high anomaly, every record with sleep < 5
the medium one, every record with steps < 3000 the low one (each
carrying the record's day, metric and value), every emitted anomaly
comes from exactly one of these rules, and records matching no rule emit
nothing. -/
theorem anomaly_detector_spec (ts : List HealthRecord) :
    detect_anomalies ts = ts.filterMap record_anomaly ∧
    (detect_anomalies ts).length =
      ts.countP (fun r => (record_anomaly r).isSome) ∧
    (∀ r : HealthRecord, r.metric = "heart_rate" ∧ r.value > 100 →
      record_anomaly r =
        some { date := r.day, metric := r.metric, value := r.value
             , severity := "high"
             , message := "Elevated resting heart rate detected" }) ∧
    (∀ r : HealthRecord, r.metric = "sleep" ∧ r.value < 5 →
      record_anomaly r =
        some { date := r.day, metric := r.metric, value := r.value
             , severity := "medium"
             , message := "Insufficient sleep duration" }) ∧
    (∀ r : HealthRecord, r.metric = "steps" ∧ r.value < 3000 →
      record_anomaly r =
        some { date := r.day, metric := r.metric, value := r.value
             , severity := "low"
             , message := "Low daily activity level" }) ∧
    (∀ r : HealthRecord, ∀ a : Anomaly, record_anomaly r = some a →
      a.date = r.day ∧ a.metric = r.metric ∧ a.value = r.value ∧
      ((r.metric = "heart_rate" ∧ r.value > 100 ∧ a.severity = "high" ∧
        a.message = "Elevated resting heart rate detected") ∨
       (r.metric = "sleep" ∧ r.value < 5 ∧ a.severity = "medium" ∧
        a.message = "Insufficient sleep duration") ∨
       (r.metric = "steps" ∧ r.value < 3000 ∧ a.severity = "low" ∧
        a.message = "Low daily activity level"))) ∧
    (∀ r : HealthRecord,
      ¬ (r.metric = "heart_rate" ∧ r.value > 100) →
      ¬ (r.metric = "sleep" ∧ r.value < 5) →
      ¬ (r.metric = "steps" ∧ r.value < 3000) →
      record_anomaly r = none) := by
  refine ⟨detect_anomalies_eq ts, ?_, ?_, ?_, ?_, ?_, ?_⟩
  · rw [detect_anomalies_eq]
    exact length_filterMap_record_anomaly ts
  · intro r hhr
    unfold record_anomaly
    rw [if_pos hhr]
  · intro r hsl
    unfold record_anomaly
    rw [if_neg (fun hc => absurd (hsl.1.symm.trans hc.1)
          (by decide : ("sleep" : String) ≠ "heart_rate")),
        if_pos hsl]
  · intro r hst
    unfold record_anomaly
    rw [if_neg (fun hc => absurd (hst.1.symm.trans hc.1)
          (by decide : ("steps" : String) ≠ "heart_rate")),
        if_neg (fun hc => absurd (hst.1.symm.trans hc.1)
          (by decide : ("steps" : String) ≠ "sleep")),
        if_pos hst]
  · intro r a h
    unfold record_anomaly at h
    split_ifs at h with h1 h2 h3
    · rw [Option.some_inj] at h
      subst h
      exact ⟨rfl, rfl, rfl, Or.inl ⟨h1.1, h1.2, rfl, rfl⟩⟩
    · rw [Option.some_inj] at h
      subst h
      exact ⟨rfl, rfl, rfl, Or.inr (Or.inl ⟨h2.1, h2.2, rfl, rfl⟩)⟩
    · rw [Option.some_inj] at h
      subst h
      exact ⟨rfl, rfl, rfl, Or.inr (Or.inr ⟨h3.1, h3.2, rfl, rfl⟩)⟩
  · intro r h1 h2 h3
    unfold record_anomaly
    rw [if_neg h1, if_neg h2, if_neg h3]

/-- Witness for claim C4: a concrete 120 bpm record satisfies the
heart-rate rule, produces exactly the high-severity anomaly, and the
detector emits it as the (non-empty) output list. -/
theorem anomaly_detector_spec_witness :
    (({ metric := "heart_rate", value := 120, day := "2024-01-02" } :
        HealthRecord).metric = "heart_rate" ∧
      ({ metric := "heart_rate", value := 120, day := "2024-01-02" } :
        HealthRecord).value > 100) ∧
    record_anomaly { metric := "heart_rate", value := 120, day := "2024-01-02" } =
      some { date := "2024-01-02", metric := "heart_rate", value := 120
           , severity := "high"
           , message := "Elevated resting heart rate detected" } ∧
    detect_anomalies
        [ { metric := "heart_rate", value := 120, day := "2024-01-02" } ] =
      [ { date := "2024-01-02", metric := "heart_rate", value := 120
        , severity := "high"
        , message := "Elevated resting heart rate detected" } ] := by
  have hcond : (({ metric := "heart_rate", value := 120, day := "2024-01-02" } :
      HealthRecord).metric = "heart_rate" ∧
      ({ metric := "heart_rate", value := 120, day := "2024-01-02" } :
        HealthRecord).value > 100) :=
    ⟨rfl, by show (120 : ℚ) > 100; norm_num⟩
  have hrule := (anomaly_detector_spec
    [ { metric := "heart_rate", value := 120, day := "2024-01-02" } ]).2.2.1
    { metric := "heart_rate", value := 120, day := "2024-01-02" } hcond
  refine ⟨hcond, hrule, ?_⟩
  rw [(anomaly_detector_spec
    [ { metric := "heart_rate", value := 120, day := "2024-01-02" } ]).1]
  simp [List.filterMap_cons, hrule]

/-- Claim C5: the Anomaly Detector is order-independent — permuting the
input records permutes the anomaly list, so the anomaly set is
unchanged. -/
theorem anomaly_detector_order_independent (ts₁ ts₂ : List HealthRecord)
    (h : ts₁.Perm ts₂) :
    (detect_anomalies ts₁).Perm (detect_anomalies ts₂) ∧
    ∀ a : Anomaly, a ∈ detect_anomalies ts₁ ↔ a ∈ detect_anomalies ts₂ := by
  rw [detect_anomalies_eq, detect_anomalies_eq]
  exact ⟨h.filterMap _, fun a => (h.filterMap _).mem_iff⟩

/-- Witness for claim C5 on a concrete two-record swap. -/
theorem anomaly_detector_order_independent_witness :
    (([ { metric := "heart_rate", value := 120, day := "2024-01-02" }
      , { metric := "sleep", value := 4, day := "2024-01-01" } ] :
        List HealthRecord).Perm
      [ { metric := "sleep", value := 4, day := "2024-01-01" }
      , { metric := "heart_rate", value := 120, day := "2024-01-02" } ]) ∧
    ((detect_anomalies
        [ { metric := "heart_rate", value := 120, day := "2024-01-02" }
        , { metric := "sleep", value := 4, day := "2024-01-01" } ]).Perm
      (detect_anomalies
        [ { metric := "sleep", value := 4, day := "2024-01-01" }
        , { metric := "heart_rate", value := 120, day := "2024-01-02" } ]) ∧
     ∀ a : Anomaly,
       a ∈ detect_anomalies
        [ { metric := "heart_rate", value := 120, day := "2024-01-02" }
        , { metric := "sleep", value := 4, day := "2024-01-01" } ] ↔
       a ∈ detect_anomalies
        [ { metric := "sleep", value := 4, day := "2024-01-01" }
        , { metric := "heart_rate", value := 120, day := "2024-01-02" } ]) := by
  have hp : ([ { metric := "heart_rate", value := 120, day := "2024-01-02" }
    , { metric := "sleep", value := 4, day := "2024-01-01" } ] :
      List HealthRecord).Perm
    [ { metric := "sleep", value := 4, day := "2024-01-01" }
    , { metric := "heart_rate", value := 120, day := "2024-01-02" } ] :=
    List.Perm.swap _ _ []
  exact ⟨hp, anomaly_detector_order_independent _ _ hp⟩

/-- Claim C1: `generate_health_insights` never raises — for every input,
including every exception raised by the completion call, it returns a
result whose `status` is "success" or "error" and whose insights value is
present (non-null); in particular every raised completion exception
yields status "error" with insights still present. -/
theorem insight_agent_never_raises (json_decode_ok : String → Bool)
    (completion : Except String String) (health_data : HealthData) :
    ((generate_health_insights json_decode_ok completion health_data).status =
        "success" ∨
      (generate_health_insights json_decode_ok completion health_data).status =
        "error") ∧
    (generate_health_insights json_decode_ok completion health_data).insights.isSome ∧
    ∀ e : String,
      (generate_health_insights json_decode_ok (.error e) health_data).status =
        "error" ∧
      (generate_health_insights json_decode_ok (.error e) health_data).insights.isSome := by
  cases completion <;> simp [generate_health_insights]

/-- Claim C6: when the completion call raises, the result's insights are
exactly the rule-based fallback, whose wellness score is
`clamp(steps/100 + sleep*10 + (100 - heart_rate), 0, 100)` over the 7-day
averages and whose recommendations are exactly the threshold checks
steps<8000, sleep<7, heart_rate>85, at most 3 of them. -/
theorem fallback_insights_spec (json_decode_ok : String → Bool)
    (health_data : HealthData) (e : String) :
    (generate_health_insights json_decode_ok (.error e) health_data).insights =
      some (.structured (fallback_insights health_data)) ∧
    (fallback_insights health_data).wellness_score =
      min 100 (max 0 (health_data.summary.steps_avg_7d / 100 +
        health_data.summary.sleep_avg_7d * 10 +
        (100 - health_data.summary.heart_rate_avg_7d))) ∧
    (fallback_insights health_data).recommendations =
      ((if health_data.summary.steps_avg_7d < 8000 then
          ["Increase daily steps to 8,000+"] else []) ++
       (if health_data.summary.sleep_avg_7d < 7 then
          ["Aim for 7-9 hours of sleep"] else []) ++
       (if health_data.summary.heart_rate_avg_7d > 85 then
          ["Monitor heart rate patterns"] else [])) ∧
    (fallback_insights health_data).recommendations.length ≤ 3 := by
  refine ⟨rfl, rfl, ?_, ?_⟩
  · unfold fallback_insights
    dsimp only
    split_ifs <;> rfl
  · unfold fallback_insights
    dsimp only
    split_ifs <;> decide

/-- Claim C7 (amended): when the completion service raises on every call
(or the library is unavailable), each of the five `/ai/*` endpoints
returns HTTP 200 with its deterministic mock generator's output for
every request whose metric fields are all non-null (nav-recommendations
and health-alert for every request, since their mocks read no metrics);
a null metric makes the greeting, status-badge and action-items mocks
raise `TypeError`, reaching the 500 branch instead. -/
theorem ai_endpoints_degrade (gemini_available : Bool) (e : String)
    (json_decode_status : String → Option StatusBadge)
    (json_decode_recs : String → Option (List NavRec))
    (json_decode_items : String → Option (List ActionItem))
    (json_decode_alert : String → Option AlertOut)
    (steps hr sleep water : ℚ) (ts : String)
    (rreq : NavRecommendationsRequest) (hreq : HealthAlertRequest) :
    navbar_greeting gemini_available (.error e)
      { metrics := { avgSteps := some steps, avgHeartRate := some hr
                   , avgSleep := some sleep, avgWater := some water }
      , timestamp := ts } = .ok (mock_greeting_text steps) ∧
    health_status_badge gemini_available (.error e) json_decode_status
      { metrics := { avgSteps := some steps, avgHeartRate := some hr
                   , avgSleep := some sleep, avgWater := some water } } =
      .ok (mock_health_status_core steps hr sleep water) ∧
    nav_recommendations gemini_available (.error e) json_decode_recs rreq =
      .ok (generate_mock_nav_recommendations rreq.currentPage) ∧
    action_items gemini_available (.error e) json_decode_items
      { metrics := { avgSteps := some steps, avgHeartRate := some hr
                   , avgSleep := some sleep, avgWater := some water } } =
      .ok (mock_action_items_core steps sleep) ∧
    health_alert gemini_available (.error e) json_decode_alert hreq =
      .ok (generate_mock_alert hreq.anomalies) := by
  refine ⟨?_, ?_, ?_, ?_, ?_⟩
  · cases gemini_available <;>
      simp [navbar_greeting, generate_greeting_with_llm, generate_mock_greeting,
        prompt_formats_ok]
  · cases gemini_available <;>
      simp [health_status_badge, generate_health_status_with_llm,
        generate_mock_health_status, prompt_formats_ok]
  · cases gemini_available <;>
      simp [nav_recommendations, generate_nav_recommendations_with_llm,
        prompt_formats_ok]
  · cases gemini_available <;>
      simp [action_items, generate_action_items_with_llm,
        generate_mock_action_items, prompt_formats_ok]
  · cases gemini_available <;>
      simp [health_alert, generate_health_alert_with_llm]

/-- Claim C7 counterexample: a navbar-greeting request carrying an
explicit null `avgSteps` makes the mock generator raise `TypeError`, so
with the completion service raising the route answers HTTP 500 — whether
or not the library is available — never an HTTP 200 body. -/
theorem ai_endpoints_counterexample :
    navbar_greeting false (.error "service unavailable")
      { metrics := { avgSteps := none, avgHeartRate := some 70
                   , avgSleep := some 7, avgWater := some 2 }
      , timestamp := "morning" } = .serverError none_type_error ∧
    navbar_greeting true (.error "service unavailable")
      { metrics := { avgSteps := none, avgHeartRate := some 70
                   , avgSleep := some 7, avgWater := some 2 }
      , timestamp := "morning" } = .serverError none_type_error ∧
    ∀ g : String,
      (HttpResult.serverError none_type_error : HttpResult String) ≠ .ok g := by
  refine ⟨rfl, ?_, ?_⟩
  · simp [navbar_greeting, generate_greeting_with_llm, generate_mock_greeting,
      prompt_formats_ok]
  · intro g h
    cases h

theorem lookup_cons_self {β : Type} (k : String) (v : β) (l : List (String × β)) :
    ((k, v) :: l).lookup k = some v := by
  simp [List.lookup]

theorem lookup_cons_ne {β : Type} {k k' : String} (v : β) (l : List (String × β))
    (h : k ≠ k') : ((k', v) :: l).lookup k = l.lookup k := by
  simp [List.lookup, beq_false_of_ne h]

theorem lookup_filter_keys {β : Type} (l : List (String × β)) (ex : List String)
    (k : String) :
    (l.filter (fun p => !(decide (p.1 ∈ ex)))).lookup k =
      if k ∈ ex then none else l.lookup k := by
  induction l with
  | nil => simp
  | cons p rest ih =>
    obtain ⟨k', v⟩ := p
    rw [List.filter_cons]
    dsimp only
    by_cases hkk : k = k'
    · subst hkk
      by_cases hc : k ∈ ex
      · rw [if_neg (by simpa using hc), ih, if_pos hc, if_pos hc]
      · rw [if_pos (by simpa using hc), if_neg hc, lookup_cons_self,
          lookup_cons_self]
    · by_cases hc : k' ∈ ex
      · rw [if_neg (by simpa using hc), ih, lookup_cons_ne _ _ hkk]
      · rw [if_pos (by simpa using hc), lookup_cons_ne _ _ hkk, ih,
          lookup_cons_ne _ _ hkk]

theorem lookup_none_not_key {β : Type} (l : List (String × β)) (k : String)
    (h : l.lookup k = none) : ∀ p ∈ l, p.1 ≠ k := by
  induction l with
  | nil => intro p hp; cases hp
  | cons q rest ih =>
    obtain ⟨k', v⟩ := q
    intro p hp
    by_cases hkk : k = k'
    · subst hkk
      rw [lookup_cons_self] at h
      cases h
    · have h' : rest.lookup k = none := by
        rwa [lookup_cons_ne _ _ hkk] at h
      rcases List.mem_cons.mp hp with rfl | hmem
      · exact fun hx => hkk hx.symm
      · exact ih h' p hmem

theorem lookup_of_mem_nodup {β : Type} (l : List (String × β)) (k : String) (v : β)
    (hnd : (l.map Prod.fst).Nodup) (hmem : (k, v) ∈ l) : l.lookup k = some v := by
  induction l with
  | nil => cases hmem
  | cons p rest ih =>
    obtain ⟨k', v'⟩ := p
    rw [List.map_cons] at hnd
    obtain ⟨hk', hnd'⟩ := List.nodup_cons.mp hnd
    rcases List.mem_cons.mp hmem with heq | hmem'
    · cases heq
      exact lookup_cons_self _ _ _
    · have hkk : k ≠ k' := by
        intro h
        subst h
        exact hk' (List.mem_map.mpr ⟨(k, v), hmem', rfl⟩)
      rw [lookup_cons_ne _ _ hkk]
      exact ih hnd' hmem'

theorem lookup_some_mem {β : Type} (l : List (String × β)) (k : String) (v : β)
    (h : l.lookup k = some v) : (k, v) ∈ l := by
  induction l with
  | nil => cases h
  | cons p rest ih =>
    obtain ⟨k', v'⟩ := p
    by_cases hkk : k = k'
    · subst hkk
      rw [lookup_cons_self] at h
      cases Option.some_inj.mp h
      exact List.mem_cons_self _ _
    · rw [lookup_cons_ne _ _ hkk] at h
      exact List.mem_cons_of_mem _ (ih h)

theorem mem_expired_iff (state : List (String × SessState)) (cutoff : Int)
    (hnd : (state.map Prod.fst).Nodup) (k : String) (st : SessState)
    (hlk : state.lookup k = some st) :
    (k ∈ (state.filter (fun p => decide (p.2.last_activity < cutoff))).map
      (fun p => p.1)) ↔ st.last_activity < cutoff := by
  constructor
  · intro hmem
    obtain ⟨q, hq, hq1⟩ := List.mem_map.mp hmem
    obtain ⟨hqmem, hqlt⟩ := List.mem_filter.mp hq
    obtain ⟨q1, q2⟩ := q
    dsimp only at hq1
    subst hq1
    have hq2 : q2 = st := by
      have := lookup_of_mem_nodup state q1 q2 hnd hqmem
      rw [this] at hlk
      exact Option.some_inj.mp hlk
    subst hq2
    simpa using hqlt
  · intro hlt
    have hmem : (k, st) ∈ state := lookup_some_mem state k st hlk
    exact List.mem_map.mpr
      ⟨(k, st), List.mem_filter.mpr ⟨hmem, by simpa using hlt⟩, rfl⟩

theorem not_mem_expired (state : List (String × SessState)) (cutoff : Int)
    (k : String) (hlk : state.lookup k = none) :
    k ∉ (state.filter (fun p => decide (p.2.last_activity < cutoff))).map
      (fun p => p.1) := by
  intro hmem
  obtain ⟨q, hq, hq1⟩ := List.mem_map.mp hmem
  exact lookup_none_not_key state k hlk q (List.mem_filter.mp hq).1 hq1

/-- Claim C8: `cleanup_expired_sessions` removes exactly the sessions
whose `last_activity` is strictly before now minus the ttl, removes each
from both the active-session map and the state map, returns the number
removed, and leaves every other session's entries unchanged (an active
entry with no state entry is also untouched). -/
theorem cleanup_expired_spec (s : SessionStore) (now hours : Int)
    (hnd : (s.session_state.map Prod.fst).Nodup) :
    ((cleanup_expired_sessions s now hours).2 =
      (s.session_state.filter
        (fun p => decide (p.2.last_activity < now - hours * 3600))).length) ∧
    (∀ sid : String, ∀ st : SessState, s.session_state.lookup sid = some st →
      (st.last_activity < now - hours * 3600 →
        (cleanup_expired_sessions s now hours).1.session_state.lookup sid = none ∧
        (cleanup_expired_sessions s now hours).1.active_sessions.lookup sid = none) ∧
      (¬ st.last_activity < now - hours * 3600 →
        (cleanup_expired_sessions s now hours).1.session_state.lookup sid = some st ∧
        (cleanup_expired_sessions s now hours).1.active_sessions.lookup sid =
          s.active_sessions.lookup sid)) ∧
    (∀ sid : String, s.session_state.lookup sid = none →
      (cleanup_expired_sessions s now hours).1.session_state.lookup sid = none ∧
      (cleanup_expired_sessions s now hours).1.active_sessions.lookup sid =
        s.active_sessions.lookup sid) := by
  unfold cleanup_expired_sessions
  dsimp only
  refine ⟨by rw [List.length_map], ?_, ?_⟩
  · intro sid st hlk
    have hiff := mem_expired_iff s.session_state (now - hours * 3600) hnd sid st hlk
    constructor
    · intro hexp
      have hc := hiff.mpr hexp
      constructor
      · rw [lookup_filter_keys, if_pos hc]
      · rw [lookup_filter_keys, if_pos hc]
    · intro hexp
      have hc : sid ∉ (s.session_state.filter
          (fun p => decide (p.2.last_activity < now - hours * 3600))).map
          (fun p => p.1) := fun hmem => hexp (hiff.mp hmem)
      constructor
      · rw [lookup_filter_keys, if_neg hc]
        exact hlk
      · rw [lookup_filter_keys, if_neg hc]
  · intro sid hlk
    have hc := not_mem_expired s.session_state (now - hours * 3600) sid hlk
    constructor
    · rw [lookup_filter_keys, if_neg hc]
      exact hlk
    · rw [lookup_filter_keys, if_neg hc]

/-- Witness for claim C8 on a one-session store whose session is
expired at now=4000 with a 1-hour ttl. -/
theorem cleanup_expired_spec_witness :
    ((demo_store.session_state.map Prod.fst).Nodup) ∧
    (((cleanup_expired_sessions demo_store 4000 1).2 =
      (demo_store.session_state.filter
        (fun p => decide (p.2.last_activity < 4000 - 1 * 3600))).length) ∧
    (∀ sid : String, ∀ st : SessState, demo_store.session_state.lookup sid = some st →
      (st.last_activity < 4000 - 1 * 3600 →
        (cleanup_expired_sessions demo_store 4000 1).1.session_state.lookup sid = none ∧
        (cleanup_expired_sessions demo_store 4000 1).1.active_sessions.lookup sid = none) ∧
      (¬ st.last_activity < 4000 - 1 * 3600 →
        (cleanup_expired_sessions demo_store 4000 1).1.session_state.lookup sid = some st ∧
        (cleanup_expired_sessions demo_store 4000 1).1.active_sessions.lookup sid =
          demo_store.active_sessions.lookup sid)) ∧
    (∀ sid : String, demo_store.session_state.lookup sid = none →
      (cleanup_expired_sessions demo_store 4000 1).1.session_state.lookup sid = none ∧
      (cleanup_expired_sessions demo_store 4000 1).1.active_sessions.lookup sid =
        demo_store.active_sessions.lookup sid)) :=
  ⟨by decide, cleanup_expired_spec demo_store 4000 1 (by decide)⟩

/-- Claim C10: for an absent session id, `get_session` returns none and
`update_session_state`, `pause_session`, `resume_session` are no-ops that
raise nothing, create nothing, and leave both maps unchanged. -/
theorem missing_session_spec (s : SessionStore) (session_id : String)
    (updates : StateUpdates) (now : Int)
    (hactive : s.active_sessions.lookup session_id = none)
    (hstate : s.session_state.lookup session_id = none) :
    get_session s session_id = none ∧
    update_session_state s session_id updates now = s ∧
    pause_session s session_id = s ∧
    resume_session s session_id now = s := by
  refine ⟨hactive, ?_, ?_, ?_⟩
  · unfold update_session_state
    rw [hstate]
    rfl
  · unfold pause_session
    rw [hstate]
    rfl
  · unfold resume_session
    rw [hstate]
    rfl

/-- Witness for claim C10 on the empty store. -/
theorem missing_session_spec_witness :
    (empty_store.active_sessions.lookup "missing" = none) ∧
    (empty_store.session_state.lookup "missing" = none) ∧
    (get_session empty_store "missing" = none ∧
     update_session_state empty_store "missing" {} 0 = empty_store ∧
     pause_session empty_store "missing" = empty_store ∧
     resume_session empty_store "missing" 0 = empty_store) :=
  ⟨rfl, rfl, missing_session_spec empty_store "missing" {} 0 rfl rfl⟩

theorem identify_patterns_sessions (bank : MemoryBank) (session : HealthSession)
    (now : Int) :
    (identify_patterns bank session now).sessions = bank.sessions := by
  unfold identify_patterns store_user_pattern
  dsimp only
  split_ifs <;> rfl

theorem store_session_countKey (bank : MemoryBank) (session : HealthSession) :
    (store_session bank session).sessions.countP
      (fun p => p.1 == session.session_id) = 1 := by
  unfold store_session
  dsimp only
  rw [List.countP_append]
  have h0 : (bank.sessions.filter
      (fun p => !(p.1 == session.session_id))).countP
      (fun p => p.1 == session.session_id) = 0 := by
    rw [List.countP_eq_zero]
    intro a ha
    have h2 := (List.mem_filter.mp ha).2
    simpa using h2
  rw [h0]
  simp [List.countP_cons]

theorem lookup_append_no_key {β : Type} (l m : List (String × β)) (k : String)
    (h : ∀ p ∈ l, p.1 ≠ k) : (l ++ m).lookup k = m.lookup k := by
  induction l with
  | nil => rfl
  | cons q rest ih =>
    obtain ⟨k', v⟩ := q
    rw [List.cons_append]
    have hq := h (k', v) (List.mem_cons_self _ _)
    rw [lookup_cons_ne _ _ (Ne.symm hq)]
    exact ih (fun p hp => h p (List.mem_cons_of_mem _ hp))

theorem store_session_lookup (bank : MemoryBank) (session : HealthSession) :
    (store_session bank session).sessions.lookup session.session_id =
      some session := by
  unfold store_session
  dsimp only
  rw [lookup_append_no_key]
  · exact lookup_cons_self _ _ _
  · intro p hp
    have h2 := (List.mem_filter.mp hp).2
    simpa using h2

theorem finalize_session_of_get (mgr : HealthMemoryManager) (session_id : String)
    (now : Int) (session : HealthSession)
    (h : mgr.session_service.active_sessions.lookup session_id = some session) :
    finalize_session mgr session_id now =
      { mgr with memory_bank :=
          identify_patterns (store_session mgr.memory_bank session) session now } := by
  unfold finalize_session
  rw [show get_session mgr.session_service session_id = some session from h]

/-- Claim C9: finalizing the same session id twice leaves exactly one
durable record for it, holding the later write's values (the active
session, unchanged between the writes), and finalize leaves the whole
in-memory session service — in particular the active-session map —
untouched. -/
theorem finalize_twice_spec (mgr : HealthMemoryManager) (session_id : String)
    (now₁ now₂ : Int) (session : HealthSession)
    (hactive : mgr.session_service.active_sessions.lookup session_id =
      some session) :
    (finalize_session (finalize_session mgr session_id now₁) session_id now₂
      ).memory_bank.sessions.countP (fun p => p.1 == session.session_id) = 1 ∧
    (finalize_session (finalize_session mgr session_id now₁) session_id now₂
      ).memory_bank.sessions.lookup session.session_id = some session ∧
    (finalize_session (finalize_session mgr session_id now₁) session_id now₂
      ).session_service = mgr.session_service := by
  rw [finalize_session_of_get mgr session_id now₁ session hactive]
  rw [finalize_session_of_get _ session_id now₂ session (by exact hactive)]
  dsimp only
  refine ⟨?_, ?_, rfl⟩
  · rw [identify_patterns_sessions]
    exact store_session_countKey _ _
  · rw [identify_patterns_sessions]
    exact store_session_lookup _ _

/-- Witness for claim C9 on a concrete one-session manager. -/
theorem finalize_twice_spec_witness :
    (demo_manager.session_service.active_sessions.lookup "s1" =
      some demo_session) ∧
    ((finalize_session (finalize_session demo_manager "s1" 0) "s1" 0
       ).memory_bank.sessions.countP
        (fun p => p.1 == demo_session.session_id) = 1 ∧
     (finalize_session (finalize_session demo_manager "s1" 0) "s1" 0
       ).memory_bank.sessions.lookup demo_session.session_id =
        some demo_session ∧
     (finalize_session (finalize_session demo_manager "s1" 0) "s1" 0
       ).session_service = demo_manager.session_service) :=
  ⟨rfl, finalize_twice_spec demo_manager "s1" 0 0 demo_session rfl⟩

end HealthCare
